import Mathlib

/-!
Verification development for the hand-gesture virtual instrument
(`src/utils.js` and `src/app.js`).

The JavaScript numbers are embedded as exact rationals (`ℚ`); integer-valued
quantities (note indices, octave shifts) are embedded as `ℤ`.  JS
`Math.floor` is `Int.floor`, JS `Math.round` (round half toward +∞) is
`⌊q + 1/2⌋`.  All definitions below are translated from the source files;
DOM / canvas-drawing side effects are omitted, and commands sent to the
Tone.js synth are reified as an explicit `ToneCmd` trace.
-/

namespace HandGesture

/-- `clamp` from `src/utils.js`: `Math.max(a, Math.min(b, v))`. -/
def clamp (v a b : ℚ) : ℚ := max a (min b v)

/-- Integer clamp, same shape as `clamp` (used where the JS value is an integer). -/
def clampZ (v a b : ℤ) : ℤ := max a (min b v)

/-- JS `Math.round`: rounds half-way cases toward positive infinity. -/
def jsRound (q : ℚ) : ℤ := ⌊q + 1/2⌋

/-- Options object of `calculateDynamicVolumeMultiplier` (`src/utils.js`). -/
structure VolumeOptions where
  leftMultiplier : ℚ
  rightMultiplier : ℚ
deriving DecidableEq

/-- The defaults used when the `options` argument is absent:
`leftMultiplier = 0.5`, `rightMultiplier = 1.5`. -/
def defaultVolumeOptions : VolumeOptions := ⟨0.5, 1.5⟩

/-- `calculateDynamicVolumeMultiplier(pointerX, canvasWidth, options)` from
`src/utils.js` lines 77-103.  `ratio` starts at `0` and is only assigned the
quotient when `center !== 0` (the zero-width guard). -/
def calculateDynamicVolumeMultiplier (pointerX canvasWidth : ℚ)
    (options : VolumeOptions) : ℚ :=
  let leftMultiplier := options.leftMultiplier
  let rightMultiplier := options.rightMultiplier
  let center := canvasWidth / 2
  let ratio0 : ℚ := if center ≠ 0 then (pointerX - center) / center else 0
  let ratio := clamp ratio0 (-1) 1
  let multiplier :=
    if 0 ≤ ratio then 1 + ratio * (rightMultiplier - 1)
    else 1 + ratio * (1 - leftMultiplier)
  clamp multiplier (min leftMultiplier rightMultiplier)
    (max leftMultiplier rightMultiplier)

/-- Default `minZ` of `zToOctaveShift` (`src/utils.js`): hand farthest. -/
def zMinDefault : ℚ := -0.1

/-- Default `maxZ` of `zToOctaveShift` (`src/utils.js`): hand closest. -/
def zMaxDefault : ℚ := 0.05

/-- `zToOctaveShift(avgZ, minZ, maxZ)` from `src/utils.js` lines 120-133. -/
def zToOctaveShift (avgZ minZ maxZ : ℚ) : ℤ :=
  let normalized := clamp ((avgZ - minZ) / (maxZ - minZ)) 0 1
  clampZ (jsRound (normalized * 4 - 2)) (-2) 2

/-- One entry of the `NOTES` table of `src/app.js` (the `color` field is
presentation-only and omitted). -/
structure Note where
  name : String
  frequency : ℚ
deriving DecidableEq

/-- The `NOTES` scale of `src/app.js` lines 33-41: highest note at index 0. -/
def NOTES : List Note :=
  [⟨"B", 493.88⟩, ⟨"A", 440.00⟩, ⟨"G", 392.00⟩, ⟨"F", 349.23⟩,
   ⟨"E", 329.63⟩, ⟨"D", 293.66⟩, ⟨"C", 261.63⟩]

/-- `getFrequencyWithOctave` (`src/app.js` lines 884-887):
`baseFrequency * Math.pow(2, octaveShift)` with the octave shift taken as an
explicit argument (in the source it reads `app.currentOctaveShift`). -/
def getFrequencyWithOctave (baseFrequency : ℚ) (octaveShift : ℤ) : ℚ :=
  baseFrequency * (2 : ℚ) ^ octaveShift

/-- One element of `app.recordedNotes`
(`{timestamp, noteIndex, octaveShift, frequency}`, `src/app.js` line 926). -/
structure RecordedEvent where
  timestamp : ℚ
  noteIndex : ℤ
  octaveShift : ℤ
  frequency : ℚ
deriving DecidableEq

/-- Commands sent to the Tone.js synth, reified as a trace.
`attack f` is `synth.triggerAttack(f)`, `retarget f` is
`synth.frequency.setValueAtTime(f, now)`, `release` is
`synth.triggerRelease()`. -/
inductive ToneCmd where
  | attack (frequency : ℚ)
  | retarget (frequency : ℚ)
  | release
deriving DecidableEq

/-- The mutable fields of the global `app` object (`src/app.js` lines 47-92)
that the gesture-to-music core reads or writes.  DOM references, the video
stream and the visual-effect buffers are omitted; `app.synth !== null` is
modelled by the boolean `synthPresent`. -/
structure AppState where
  currentNote : Option Note
  currentNoteIndex : ℤ
  lastNoteChangeY : ℚ
  lastNoteChangeTime : ℚ
  currentOctaveShift : ℤ
  isPlaying : Bool
  synthPresent : Bool
  audioInitialized : Bool
  isRecording : Bool
  recordedNotes : List RecordedEvent
  recordingStartTime : ℚ
  isPlayingRecording : Bool
  selectedNoteIndices : Finset ℕ
  dynamicVolumeMultiplier : ℚ
  handDetected : Bool
deriving DecidableEq

/-- The initial field values of `app` (`src/app.js` lines 47-92), with the
audio engine already started (`synthPresent`/`audioInitialized` true models
the state after the user-gesture-gated `initAudio`). -/
def initialState : AppState where
  currentNote := none
  currentNoteIndex := -1
  lastNoteChangeY := 0
  lastNoteChangeTime := 0
  currentOctaveShift := 0
  isPlaying := false
  synthPresent := true
  audioInitialized := true
  isRecording := false
  recordedNotes := []
  recordingStartTime := 0
  isPlayingRecording := false
  selectedNoteIndices := ∅
  dynamicVolumeMultiplier := 1
  handDetected := false

/-- `NOTE_CHANGE_THRESHOLD` (`src/app.js` line 95): hysteresis dead zone in px. -/
def NOTE_CHANGE_THRESHOLD : ℚ := 20

/-- `MIN_NOTE_CHANGE_INTERVAL` (`src/app.js` line 98): rate limit in ms. -/
def MIN_NOTE_CHANGE_INTERVAL : ℚ := 100

/-- `playNote(frequency)` (`src/app.js` lines 420-436).  Returns the updated
state together with the synth commands issued.  The early return fires when
the synth is missing or audio has not been initialized. -/
def playNote (frequency : ℚ) (s : AppState) : AppState × List ToneCmd :=
  if ¬(s.synthPresent ∧ s.audioInitialized) then (s, [])
  else if ¬s.isPlaying then
    ({ s with isPlaying := true }, [ToneCmd.attack frequency])
  else (s, [ToneCmd.retarget frequency])

/-- `stopNote()` (`src/app.js` lines 444-455): early return when nothing is
playing or the synth is missing; otherwise release and mark not playing. -/
def stopNote (s : AppState) : AppState × List ToneCmd :=
  if ¬(s.synthPresent ∧ s.isPlaying) then (s, [])
  else ({ s with isPlaying := false }, [ToneCmd.release])

/-- `recordNote()` (`src/app.js` lines 920-939): append a timestamped event
while recording is active and a note is current; the freshly pushed index is
selected by default.  `now` stands for the `performance.now()` call. -/
def recordNote (now : ℚ) (s : AppState) : AppState :=
  match s.currentNote with
  | none => s
  | some note =>
    if s.isRecording then
      let relativeTime := now - s.recordingStartTime
      let noteData : RecordedEvent :=
        ⟨relativeTime, s.currentNoteIndex, s.currentOctaveShift,
         getFrequencyWithOctave note.frequency s.currentOctaveShift⟩
      let recs := s.recordedNotes ++ [noteData]
      { s with recordedNotes := recs,
               selectedNoteIndices := insert (recs.length - 1) s.selectedNoteIndices }
    else s

/-- The zone computation of `mapPositionToNote()` (`src/app.js` lines
588-592): the raw `Math.floor(y / zoneHeight)` clamped to
`[0, NOTES.length - 1]`, for canvas height `H` and pointer pixel `y`. -/
def rawNoteIndex (H y : ℚ) : ℤ :=
  let zoneHeight := H / (NOTES.length : ℚ)
  let noteIndex0 : ℤ := ⌊y / zoneHeight⌋
  max 0 (min ((NOTES.length : ℤ) - 1) noteIndex0)

/-- `mapPositionToNote()` (`src/app.js` lines 585-623), as a function of the
canvas height `H`, the pointer pixel `y` and the current time `now`.  The
second component is `some now` exactly when a note change is committed (the
source then updates the display, records the note and spawns particles).
`noteIndex` is the zone index after the hysteresis block (which suppresses a
change when the pointer moved less than `NOTE_CHANGE_THRESHOLD` from the
last committed `y`). -/
def mapPositionToNote (H y now : ℚ) (s : AppState) : AppState × Option ℚ :=
  let noteIndex1 : ℤ := rawNoteIndex H y
  let noteIndex : ℤ :=
    if s.currentNoteIndex ≠ -1 ∧ |y - s.lastNoteChangeY| < NOTE_CHANGE_THRESHOLD ∧
        noteIndex1 ≠ s.currentNoteIndex
    then s.currentNoteIndex
    else noteIndex1
  if noteIndex ≠ s.currentNoteIndex then
    if MIN_NOTE_CHANGE_INTERVAL ≤ now - s.lastNoteChangeTime then
      let s1 : AppState :=
        { s with currentNoteIndex := noteIndex,
                 currentNote := NOTES.get? noteIndex.toNat,
                 lastNoteChangeY := y,
                 lastNoteChangeTime := now }
      (recordNote now s1, some now)
    else (s, none)
  else (s, none)

/-- `calculateDynamicVolume()` (`src/app.js` lines 742-763): the in-app
recomputation of the multiplier from the non-mirrored pointer `x` and the
canvas width `W`.  (Note: unlike `utils.calculateDynamicVolumeMultiplier`
this uses `(centerX - x) / centerX`, and it has no zero-width guard; it is
only invoked while a frame with `W > 0` is being processed.) -/
def calculateDynamicVolume (W x : ℚ) (s : AppState) : AppState :=
  let centerX := W / 2
  let distanceFromCenter := (centerX - x) / centerX
  let m := 1 + distanceFromCenter * 0.5
  { s with dynamicVolumeMultiplier := max 0.5 (min 1.5 m) }

/-- `updateOctaveShift(landmarks)` (`src/app.js` lines 856-881): average the
`z` of all 21 landmarks, normalize between the inline `minZ = -0.1` and
`maxZ = 0.05`, map to `[-2, 2]` and store only on change. -/
def updateOctaveShift (zs : List ℚ) (s : AppState) : AppState :=
  if zs.length < 21 then s
  else
    let avgZ := zs.sum / (zs.length : ℚ)
    let minZ : ℚ := -0.1
    let maxZ : ℚ := 0.05
    let normalized := max 0 (min 1 ((avgZ - minZ) / (maxZ - minZ)))
    let octave := max (-2) (min 2 (jsRound (normalized * 4 - 2)))
    if octave ≠ s.currentOctaveShift then { s with currentOctaveShift := octave }
    else s

/-- One detector callback input: either no hand, or a hand whose index
fingertip has normalized coordinates `(lx, ly)` (scaled to pixels by
`extractPointerFinger`, `src/app.js` lines 573-582) and whose 21 landmarks
have depth values `zs`.  `t` is the `performance.now()` of the tick. -/
inductive Frame where
  | noHand (t : ℚ)
  | hand (t lx ly : ℚ) (zs : List ℚ)

/-- The gesture-to-music core of the `onHandsResults` callback
(`src/app.js` lines 458-546), with drawing, FPS bookkeeping and DOM updates
omitted.  Returns the new state, the committed note-change time (if any)
and the synth commands of the tick.  The hand branch runs
`extractPointerFinger`, `mapPositionToNote`, `calculateDynamicVolume`,
`updateOctaveShift` and then `playNote` on the octave-adjusted frequency;
the no-hand branch stops the note and resets the note selection. -/
def processFrame (W H : ℚ) (s : AppState) (f : Frame) :
    AppState × Option ℚ × List ToneCmd :=
  match f with
  | Frame.hand t lx ly zs =>
    let x := lx * W
    let y := ly * H
    let s0 := { s with handDetected := true }
    let m := mapPositionToNote H y t s0
    let s1 := calculateDynamicVolume W x m.1
    let s2 := updateOctaveShift zs s1
    match s2.currentNote with
    | some note =>
      let p := playNote (getFrequencyWithOctave note.frequency s2.currentOctaveShift) s2
      (p.1, m.2, p.2)
    | none => (s2, m.2, [])
  | Frame.noHand _ =>
    let p := stopNote s
    ({ p.1 with handDetected := false, currentNote := none, currentNoteIndex := -1,
                dynamicVolumeMultiplier := 1 },
     none, p.2)

/-- Fold `processFrame` over a list of detector callbacks, collecting the
committed note-change times and the synth command trace. -/
def processFrames (W H : ℚ) : List Frame → AppState → AppState × List ℚ × List ToneCmd
  | [], s => (s, [], [])
  | f :: rest, s =>
    let out1 := processFrame W H s f
    let out2 := processFrames W H rest out1.1
    (out2.1, out1.2.1.toList ++ out2.2.1, out1.2.2 ++ out2.2.2)

/-- `toggleRecording()` (`src/app.js` lines 890-917): start wipes the buffer
and the selection and stamps the session start; stop only clears the flag. -/
def toggleRecording (now : ℚ) (s : AppState) : AppState :=
  if ¬s.audioInitialized then s
  else if ¬s.isRecording then
    { s with isRecording := true, recordedNotes := [],
             selectedNoteIndices := ∅, recordingStartTime := now }
  else { s with isRecording := false }

/-- `clearRecording()` (`src/app.js` lines 1022-1036).  The `alert` strings
surfaced to the user are returned as an `Option String`; `confirmOk` is the
answer of the `confirm` dialog. -/
def clearRecording (confirmOk : Bool) (s : AppState) : AppState × Option String :=
  if s.recordedNotes.length = 0 then (s, some "No recording to clear!")
  else if confirmOk then
    ({ s with recordedNotes := [], selectedNoteIndices := ∅ },
     some "Recording cleared!")
  else (s, none)

/-- The closure state of one `playSequence` run (`src/app.js` lines 961-1019):
the captured `noteIndices`, the captured `startTime`, and the mutable
`noteIdx` cursor. -/
structure PlaybackRun where
  noteIndices : List ℕ
  startTime : ℚ
  noteIdx : ℕ
deriving DecidableEq

/-- Entry of `playSequence(noteIndices)` (`src/app.js` lines 961-974).  If a
playback is already running this is the toggle-stop branch (clear the flag,
stop the note, no new run); otherwise the flag is set and a fresh run is
created whose first `playNext` step the caller then executes. -/
def playSequence (noteIndices : List ℕ) (now : ℚ) (s : AppState) :
    AppState × Option PlaybackRun × List ToneCmd :=
  if s.isPlayingRecording then
    let p := stopNote { s with isPlayingRecording := false }
    (p.1, none, p.2)
  else
    ({ s with isPlayingRecording := true },
     some ⟨noteIndices, now, 0⟩, [])

/-- One execution of the scheduled `playNext()` closure
(`src/app.js` lines 976-1016) at wall-clock time `now`.  Returns the new
app state, the new run state, the synth commands, and `some d` when
`setTimeout(playNext, d)` re-schedules the closure (`none` when the run
ends).  The two `none` fall-through arms correspond to out-of-bounds array
accesses that cannot occur for runs built from valid indices. -/
def playNextStep (s : AppState) (run : PlaybackRun) (now : ℚ) :
    AppState × PlaybackRun × List ToneCmd × Option ℚ :=
  if ¬s.isPlayingRecording ∨ run.noteIndices.length ≤ run.noteIdx then
    let p := stopNote { s with isPlayingRecording := false }
    (p.1, run, p.2, none)
  else
    match run.noteIndices.get? run.noteIdx with
    | none => (s, run, [], none)
    | some recordedNoteIdx =>
      match s.recordedNotes.get? recordedNoteIdx with
      | none => (s, run, [], none)
      | some note =>
        let elapsed := now - run.startTime
        let nextNoteTime := note.timestamp
        if nextNoteTime ≤ elapsed then
          let q :=
            if s.synthPresent ∧ s.audioInitialized then
              let p := playNote note.frequency s
              ({ p.1 with currentNote := NOTES.get? note.noteIndex.toNat,
                          currentOctaveShift := note.octaveShift }, p.2)
            else (s, ([] : List ToneCmd))
          let run' : PlaybackRun := { run with noteIdx := run.noteIdx + 1 }
          if run'.noteIdx < run.noteIndices.length then
            match run.noteIndices.get? run'.noteIdx with
            | none => (q.1, run', q.2, none)
            | some nextIdx =>
              match s.recordedNotes.get? nextIdx with
              | none => (q.1, run', q.2, none)
              | some nextNote =>
                (q.1, run', q.2, some (nextNote.timestamp - nextNoteTime))
          else (q.1, run', q.2, some 500)
        else (s, run, [], some (min (nextNoteTime - elapsed) 50))

/-- `playRecording()` (`src/app.js` lines 942-948): report when the buffer is
empty, otherwise play all indices `0 .. length-1`.  The last component is
the `alert` message, if any. -/
def playRecording (now : ℚ) (s : AppState) :
    AppState × Option PlaybackRun × List ToneCmd × Option String :=
  if s.recordedNotes.length = 0 then
    (s, none, [],
     some "No notes recorded yet! Click Record while playing to capture notes.")
  else
    let p := playSequence (List.range s.recordedNotes.length) now s
    (p.1, p.2.1, p.2.2, none)

/-- `playSelectedNotes()` (`src/app.js` lines 951-958): sort the selection
ascending, report when empty, otherwise play it. -/
def playSelectedNotes (now : ℚ) (s : AppState) :
    AppState × Option PlaybackRun × List ToneCmd × Option String :=
  let selected := s.selectedNoteIndices.sort (· ≤ ·)
  if selected.length = 0 then
    (s, none, [], some "No notes selected! Click Select All or check notes to play.")
  else
    let p := playSequence selected now s
    (p.1, p.2.1, p.2.2, none)


/-- Well-formedness of a recorded event: the note index is one of the seven
scale indices, the octave shift lies in `[-2, 2]`, and the stored frequency
is the indexed base frequency shifted by the stored octave. -/
def wfEvent (e : RecordedEvent) : Prop :=
  0 ≤ e.noteIndex ∧ e.noteIndex ≤ 6 ∧ -2 ≤ e.octaveShift ∧ e.octaveShift ≤ 2 ∧
  (NOTES.get? e.noteIndex.toNat).map
    (fun n => getFrequencyWithOctave n.frequency e.octaveShift) = some e.frequency

/-- The state invariant backing `wfEvent`: the current octave shift is in
range and every buffered event is well-formed. -/
def wfState (s : AppState) : Prop :=
  -2 ≤ s.currentOctaveShift ∧ s.currentOctaveShift ≤ 2 ∧
  ∀ e ∈ s.recordedNotes, wfEvent e

/-- A 21-landmark depth sample sitting exactly at the middle depth
(all `z = -0.025`), used for concrete runs. -/
def zsMid : List ℚ := List.replicate 21 (-1/40)

/-! ### Projection lemmas: which fields each operation leaves unchanged -/

@[simp] lemma calculateDynamicVolume_currentNote (W x : ℚ) (s : AppState) :
    (calculateDynamicVolume W x s).currentNote = s.currentNote :=
  rfl

@[simp] lemma calculateDynamicVolume_currentNoteIndex (W x : ℚ) (s : AppState) :
    (calculateDynamicVolume W x s).currentNoteIndex = s.currentNoteIndex :=
  rfl

@[simp] lemma calculateDynamicVolume_lastNoteChangeY (W x : ℚ) (s : AppState) :
    (calculateDynamicVolume W x s).lastNoteChangeY = s.lastNoteChangeY :=
  rfl

@[simp] lemma calculateDynamicVolume_lastNoteChangeTime (W x : ℚ) (s : AppState) :
    (calculateDynamicVolume W x s).lastNoteChangeTime = s.lastNoteChangeTime :=
  rfl

@[simp] lemma calculateDynamicVolume_currentOctaveShift (W x : ℚ) (s : AppState) :
    (calculateDynamicVolume W x s).currentOctaveShift = s.currentOctaveShift :=
  rfl

@[simp] lemma calculateDynamicVolume_isPlaying (W x : ℚ) (s : AppState) :
    (calculateDynamicVolume W x s).isPlaying = s.isPlaying :=
  rfl

@[simp] lemma calculateDynamicVolume_synthPresent (W x : ℚ) (s : AppState) :
    (calculateDynamicVolume W x s).synthPresent = s.synthPresent :=
  rfl

@[simp] lemma calculateDynamicVolume_audioInitialized (W x : ℚ) (s : AppState) :
    (calculateDynamicVolume W x s).audioInitialized = s.audioInitialized :=
  rfl

@[simp] lemma calculateDynamicVolume_isRecording (W x : ℚ) (s : AppState) :
    (calculateDynamicVolume W x s).isRecording = s.isRecording :=
  rfl

@[simp] lemma calculateDynamicVolume_recordedNotes (W x : ℚ) (s : AppState) :
    (calculateDynamicVolume W x s).recordedNotes = s.recordedNotes :=
  rfl

@[simp] lemma calculateDynamicVolume_recordingStartTime (W x : ℚ) (s : AppState) :
    (calculateDynamicVolume W x s).recordingStartTime = s.recordingStartTime :=
  rfl

@[simp] lemma calculateDynamicVolume_isPlayingRecording (W x : ℚ) (s : AppState) :
    (calculateDynamicVolume W x s).isPlayingRecording = s.isPlayingRecording :=
  rfl

@[simp] lemma calculateDynamicVolume_selectedNoteIndices (W x : ℚ) (s : AppState) :
    (calculateDynamicVolume W x s).selectedNoteIndices = s.selectedNoteIndices :=
  rfl

@[simp] lemma updateOctaveShift_currentNote (zs : List ℚ) (s : AppState) :
    (updateOctaveShift zs s).currentNote = s.currentNote :=
  by unfold updateOctaveShift; dsimp only; split_ifs <;> rfl

@[simp] lemma updateOctaveShift_currentNoteIndex (zs : List ℚ) (s : AppState) :
    (updateOctaveShift zs s).currentNoteIndex = s.currentNoteIndex :=
  by unfold updateOctaveShift; dsimp only; split_ifs <;> rfl

@[simp] lemma updateOctaveShift_lastNoteChangeY (zs : List ℚ) (s : AppState) :
    (updateOctaveShift zs s).lastNoteChangeY = s.lastNoteChangeY :=
  by unfold updateOctaveShift; dsimp only; split_ifs <;> rfl

@[simp] lemma updateOctaveShift_lastNoteChangeTime (zs : List ℚ) (s : AppState) :
    (updateOctaveShift zs s).lastNoteChangeTime = s.lastNoteChangeTime :=
  by unfold updateOctaveShift; dsimp only; split_ifs <;> rfl

@[simp] lemma updateOctaveShift_isPlaying (zs : List ℚ) (s : AppState) :
    (updateOctaveShift zs s).isPlaying = s.isPlaying :=
  by unfold updateOctaveShift; dsimp only; split_ifs <;> rfl

@[simp] lemma updateOctaveShift_synthPresent (zs : List ℚ) (s : AppState) :
    (updateOctaveShift zs s).synthPresent = s.synthPresent :=
  by unfold updateOctaveShift; dsimp only; split_ifs <;> rfl

@[simp] lemma updateOctaveShift_audioInitialized (zs : List ℚ) (s : AppState) :
    (updateOctaveShift zs s).audioInitialized = s.audioInitialized :=
  by unfold updateOctaveShift; dsimp only; split_ifs <;> rfl

@[simp] lemma updateOctaveShift_isRecording (zs : List ℚ) (s : AppState) :
    (updateOctaveShift zs s).isRecording = s.isRecording :=
  by unfold updateOctaveShift; dsimp only; split_ifs <;> rfl

@[simp] lemma updateOctaveShift_recordedNotes (zs : List ℚ) (s : AppState) :
    (updateOctaveShift zs s).recordedNotes = s.recordedNotes :=
  by unfold updateOctaveShift; dsimp only; split_ifs <;> rfl

@[simp] lemma updateOctaveShift_recordingStartTime (zs : List ℚ) (s : AppState) :
    (updateOctaveShift zs s).recordingStartTime = s.recordingStartTime :=
  by unfold updateOctaveShift; dsimp only; split_ifs <;> rfl

@[simp] lemma updateOctaveShift_isPlayingRecording (zs : List ℚ) (s : AppState) :
    (updateOctaveShift zs s).isPlayingRecording = s.isPlayingRecording :=
  by unfold updateOctaveShift; dsimp only; split_ifs <;> rfl

@[simp] lemma updateOctaveShift_selectedNoteIndices (zs : List ℚ) (s : AppState) :
    (updateOctaveShift zs s).selectedNoteIndices = s.selectedNoteIndices :=
  by unfold updateOctaveShift; dsimp only; split_ifs <;> rfl

@[simp] lemma playNote_fst_currentNote (fq : ℚ) (s : AppState) :
    (playNote fq s).1.currentNote = s.currentNote :=
  by unfold playNote; split_ifs <;> rfl

@[simp] lemma playNote_fst_currentNoteIndex (fq : ℚ) (s : AppState) :
    (playNote fq s).1.currentNoteIndex = s.currentNoteIndex :=
  by unfold playNote; split_ifs <;> rfl

@[simp] lemma playNote_fst_lastNoteChangeY (fq : ℚ) (s : AppState) :
    (playNote fq s).1.lastNoteChangeY = s.lastNoteChangeY :=
  by unfold playNote; split_ifs <;> rfl

@[simp] lemma playNote_fst_lastNoteChangeTime (fq : ℚ) (s : AppState) :
    (playNote fq s).1.lastNoteChangeTime = s.lastNoteChangeTime :=
  by unfold playNote; split_ifs <;> rfl

@[simp] lemma playNote_fst_currentOctaveShift (fq : ℚ) (s : AppState) :
    (playNote fq s).1.currentOctaveShift = s.currentOctaveShift :=
  by unfold playNote; split_ifs <;> rfl

@[simp] lemma playNote_fst_synthPresent (fq : ℚ) (s : AppState) :
    (playNote fq s).1.synthPresent = s.synthPresent :=
  by unfold playNote; split_ifs <;> rfl

@[simp] lemma playNote_fst_audioInitialized (fq : ℚ) (s : AppState) :
    (playNote fq s).1.audioInitialized = s.audioInitialized :=
  by unfold playNote; split_ifs <;> rfl

@[simp] lemma playNote_fst_isRecording (fq : ℚ) (s : AppState) :
    (playNote fq s).1.isRecording = s.isRecording :=
  by unfold playNote; split_ifs <;> rfl

@[simp] lemma playNote_fst_recordedNotes (fq : ℚ) (s : AppState) :
    (playNote fq s).1.recordedNotes = s.recordedNotes :=
  by unfold playNote; split_ifs <;> rfl

@[simp] lemma playNote_fst_recordingStartTime (fq : ℚ) (s : AppState) :
    (playNote fq s).1.recordingStartTime = s.recordingStartTime :=
  by unfold playNote; split_ifs <;> rfl

@[simp] lemma playNote_fst_isPlayingRecording (fq : ℚ) (s : AppState) :
    (playNote fq s).1.isPlayingRecording = s.isPlayingRecording :=
  by unfold playNote; split_ifs <;> rfl

@[simp] lemma playNote_fst_selectedNoteIndices (fq : ℚ) (s : AppState) :
    (playNote fq s).1.selectedNoteIndices = s.selectedNoteIndices :=
  by unfold playNote; split_ifs <;> rfl

@[simp] lemma stopNote_fst_currentNote (s : AppState) :
    (stopNote s).1.currentNote = s.currentNote :=
  by unfold stopNote; split_ifs <;> rfl

@[simp] lemma stopNote_fst_currentNoteIndex (s : AppState) :
    (stopNote s).1.currentNoteIndex = s.currentNoteIndex :=
  by unfold stopNote; split_ifs <;> rfl

@[simp] lemma stopNote_fst_lastNoteChangeY (s : AppState) :
    (stopNote s).1.lastNoteChangeY = s.lastNoteChangeY :=
  by unfold stopNote; split_ifs <;> rfl

@[simp] lemma stopNote_fst_lastNoteChangeTime (s : AppState) :
    (stopNote s).1.lastNoteChangeTime = s.lastNoteChangeTime :=
  by unfold stopNote; split_ifs <;> rfl

@[simp] lemma stopNote_fst_currentOctaveShift (s : AppState) :
    (stopNote s).1.currentOctaveShift = s.currentOctaveShift :=
  by unfold stopNote; split_ifs <;> rfl

@[simp] lemma stopNote_fst_synthPresent (s : AppState) :
    (stopNote s).1.synthPresent = s.synthPresent :=
  by unfold stopNote; split_ifs <;> rfl

@[simp] lemma stopNote_fst_audioInitialized (s : AppState) :
    (stopNote s).1.audioInitialized = s.audioInitialized :=
  by unfold stopNote; split_ifs <;> rfl

@[simp] lemma stopNote_fst_isRecording (s : AppState) :
    (stopNote s).1.isRecording = s.isRecording :=
  by unfold stopNote; split_ifs <;> rfl

@[simp] lemma stopNote_fst_recordedNotes (s : AppState) :
    (stopNote s).1.recordedNotes = s.recordedNotes :=
  by unfold stopNote; split_ifs <;> rfl

@[simp] lemma stopNote_fst_recordingStartTime (s : AppState) :
    (stopNote s).1.recordingStartTime = s.recordingStartTime :=
  by unfold stopNote; split_ifs <;> rfl

@[simp] lemma stopNote_fst_isPlayingRecording (s : AppState) :
    (stopNote s).1.isPlayingRecording = s.isPlayingRecording :=
  by unfold stopNote; split_ifs <;> rfl

@[simp] lemma stopNote_fst_selectedNoteIndices (s : AppState) :
    (stopNote s).1.selectedNoteIndices = s.selectedNoteIndices :=
  by unfold stopNote; split_ifs <;> rfl

@[simp] lemma recordNote_currentNote (now : ℚ) (s : AppState) :
    (recordNote now s).currentNote = s.currentNote :=
  by unfold recordNote; cases hcn : s.currentNote <;> dsimp only <;>
    first | rfl | exact hcn | (split_ifs <;> first | rfl | exact hcn)

@[simp] lemma recordNote_currentNoteIndex (now : ℚ) (s : AppState) :
    (recordNote now s).currentNoteIndex = s.currentNoteIndex :=
  by unfold recordNote; cases hcn : s.currentNote <;> dsimp only <;>
    first | rfl | exact hcn | (split_ifs <;> first | rfl | exact hcn)

@[simp] lemma recordNote_lastNoteChangeY (now : ℚ) (s : AppState) :
    (recordNote now s).lastNoteChangeY = s.lastNoteChangeY :=
  by unfold recordNote; cases hcn : s.currentNote <;> dsimp only <;>
    first | rfl | exact hcn | (split_ifs <;> first | rfl | exact hcn)

@[simp] lemma recordNote_lastNoteChangeTime (now : ℚ) (s : AppState) :
    (recordNote now s).lastNoteChangeTime = s.lastNoteChangeTime :=
  by unfold recordNote; cases hcn : s.currentNote <;> dsimp only <;>
    first | rfl | exact hcn | (split_ifs <;> first | rfl | exact hcn)

@[simp] lemma recordNote_currentOctaveShift (now : ℚ) (s : AppState) :
    (recordNote now s).currentOctaveShift = s.currentOctaveShift :=
  by unfold recordNote; cases hcn : s.currentNote <;> dsimp only <;>
    first | rfl | exact hcn | (split_ifs <;> first | rfl | exact hcn)

@[simp] lemma recordNote_isPlaying (now : ℚ) (s : AppState) :
    (recordNote now s).isPlaying = s.isPlaying :=
  by unfold recordNote; cases hcn : s.currentNote <;> dsimp only <;>
    first | rfl | exact hcn | (split_ifs <;> first | rfl | exact hcn)

@[simp] lemma recordNote_synthPresent (now : ℚ) (s : AppState) :
    (recordNote now s).synthPresent = s.synthPresent :=
  by unfold recordNote; cases hcn : s.currentNote <;> dsimp only <;>
    first | rfl | exact hcn | (split_ifs <;> first | rfl | exact hcn)

@[simp] lemma recordNote_audioInitialized (now : ℚ) (s : AppState) :
    (recordNote now s).audioInitialized = s.audioInitialized :=
  by unfold recordNote; cases hcn : s.currentNote <;> dsimp only <;>
    first | rfl | exact hcn | (split_ifs <;> first | rfl | exact hcn)

@[simp] lemma recordNote_isRecording (now : ℚ) (s : AppState) :
    (recordNote now s).isRecording = s.isRecording :=
  by unfold recordNote; cases hcn : s.currentNote <;> dsimp only <;>
    first | rfl | exact hcn | (split_ifs <;> first | rfl | exact hcn)

@[simp] lemma recordNote_recordingStartTime (now : ℚ) (s : AppState) :
    (recordNote now s).recordingStartTime = s.recordingStartTime :=
  by unfold recordNote; cases hcn : s.currentNote <;> dsimp only <;>
    first | rfl | exact hcn | (split_ifs <;> first | rfl | exact hcn)

@[simp] lemma recordNote_isPlayingRecording (now : ℚ) (s : AppState) :
    (recordNote now s).isPlayingRecording = s.isPlayingRecording :=
  by unfold recordNote; cases hcn : s.currentNote <;> dsimp only <;>
    first | rfl | exact hcn | (split_ifs <;> first | rfl | exact hcn)


/-! ### Facts about the scale table and the zone index -/

lemma NOTES_length : NOTES.length = 7 := rfl

lemma NOTES_get?_bounds (i : ℤ) (h0 : 0 ≤ i) (h6 : i ≤ 6) :
    ∃ note, NOTES.get? i.toNat = some note := by
  interval_cases i <;> exact ⟨_, rfl⟩

lemma rawNoteIndex_bounds (H y : ℚ) :
    0 ≤ rawNoteIndex H y ∧ rawNoteIndex H y ≤ 6 := by
  simp only [rawNoteIndex, NOTES_length]
  omega

lemma clamp_mono {a b lo hi : ℚ} (h : a ≤ b) :
    clamp a lo hi ≤ clamp b lo hi :=
  max_le_max le_rfl (min_le_min le_rfl h)

/-! ### Behaviour of `recordNote` on the buffer -/

lemma recordNote_buffer_of_recording (now : ℚ) (s : AppState) (note : Note)
    (hrec : s.isRecording = true) (hcn : s.currentNote = some note) :
    (recordNote now s).recordedNotes
      = s.recordedNotes ++
        [⟨now - s.recordingStartTime, s.currentNoteIndex, s.currentOctaveShift,
          getFrequencyWithOctave note.frequency s.currentOctaveShift⟩] := by
  unfold recordNote
  rw [hcn]
  dsimp only
  rw [if_pos hrec]

lemma recordNote_buffer_of_not_recording (now : ℚ) (s : AppState)
    (hrec : s.isRecording = false) :
    (recordNote now s).recordedNotes = s.recordedNotes := by
  unfold recordNote
  cases hcn : s.currentNote
  · rfl
  · dsimp only
    rw [if_neg (by simp [hrec])]

/-! ### Characterization of `mapPositionToNote` -/

/-- Every call to `mapPositionToNote` either leaves the state unchanged and
commits nothing, or — when the rate limit allows it — commits a change to
some in-range zone index different from the current one, stamping
`lastNoteChangeY`/`lastNoteChangeTime` and running `recordNote`. -/
lemma mapPositionToNote_cases (H y now : ℚ) (s : AppState) :
    mapPositionToNote H y now s = (s, none) ∨
    (s.lastNoteChangeTime + MIN_NOTE_CHANGE_INTERVAL ≤ now ∧
     ∃ i : ℤ, 0 ≤ i ∧ i ≤ 6 ∧ i ≠ s.currentNoteIndex ∧
       mapPositionToNote H y now s =
         (recordNote now
           { s with currentNoteIndex := i, currentNote := NOTES.get? i.toNat,
                    lastNoteChangeY := y, lastNoteChangeTime := now },
          some now)) := by
  unfold mapPositionToNote
  dsimp only
  by_cases hh : s.currentNoteIndex ≠ -1 ∧
      |y - s.lastNoteChangeY| < NOTE_CHANGE_THRESHOLD ∧
      rawNoteIndex H y ≠ s.currentNoteIndex
  · rw [if_pos hh, if_neg (by simp)]
    exact Or.inl rfl
  · rw [if_neg hh]
    by_cases hne : rawNoteIndex H y ≠ s.currentNoteIndex
    · rw [if_pos hne]
      by_cases hrate : MIN_NOTE_CHANGE_INTERVAL ≤ now - s.lastNoteChangeTime
      · rw [if_pos hrate]
        refine Or.inr ⟨by linarith, rawNoteIndex H y,
          (rawNoteIndex_bounds H y).1, (rawNoteIndex_bounds H y).2, hne, rfl⟩
      · rw [if_neg hrate]
        exact Or.inl rfl
    · rw [if_neg hne]
      exact Or.inl rfl


/-! ### Behaviour of one `onHandsResults` tick -/

lemma updateOctaveShift_octave (zs : List ℚ) (s : AppState) :
    (updateOctaveShift zs s).currentOctaveShift = s.currentOctaveShift ∨
    (-2 ≤ (updateOctaveShift zs s).currentOctaveShift ∧
     (updateOctaveShift zs s).currentOctaveShift ≤ 2) := by
  unfold updateOctaveShift
  dsimp only
  split_ifs
  · exact Or.inl rfl
  · refine Or.inr ⟨le_max_left _ _, max_le (by norm_num) (min_le_left _ _)⟩
  · exact Or.inl rfl

/-- Summary of one processed frame, for the rate-limit, recording and
well-formedness arguments: a tick never touches the recording flag or the
session start time; it either leaves the octave shift alone or stores a
clamped value; and it either commits no note change (leaving the rate-limit
timestamp and the buffer alone) or commits one at a time `t` at least
`MIN_NOTE_CHANGE_INTERVAL` after the previous committed change, restamps the
timestamp to `t`, and — exactly when recording is on — appends one event of
the committed shape. -/
lemma processFrame_master (W H : ℚ) (s : AppState) (f : Frame) :
    (processFrame W H s f).1.isRecording = s.isRecording ∧
    (processFrame W H s f).1.recordingStartTime = s.recordingStartTime ∧
    ((processFrame W H s f).1.currentOctaveShift = s.currentOctaveShift ∨
      (-2 ≤ (processFrame W H s f).1.currentOctaveShift ∧
       (processFrame W H s f).1.currentOctaveShift ≤ 2)) ∧
    (((processFrame W H s f).2.1 = none ∧
      (processFrame W H s f).1.lastNoteChangeTime = s.lastNoteChangeTime ∧
      (processFrame W H s f).1.recordedNotes = s.recordedNotes) ∨
     (∃ t, (processFrame W H s f).2.1 = some t ∧
       s.lastNoteChangeTime + MIN_NOTE_CHANGE_INTERVAL ≤ t ∧
       (processFrame W H s f).1.lastNoteChangeTime = t ∧
       ((s.isRecording = false ∧
           (processFrame W H s f).1.recordedNotes = s.recordedNotes) ∨
        (s.isRecording = true ∧
         ∃ (i : ℤ) (note : Note), 0 ≤ i ∧ i ≤ 6 ∧
           NOTES.get? i.toNat = some note ∧
           (processFrame W H s f).1.recordedNotes = s.recordedNotes ++
             [⟨t - s.recordingStartTime, i, s.currentOctaveShift,
               getFrequencyWithOctave note.frequency s.currentOctaveShift⟩])))) := by
  cases f with
  | noHand t =>
    refine ⟨by simp [processFrame], by simp [processFrame], Or.inl (by simp [processFrame]),
      Or.inl ⟨rfl, by simp [processFrame], by simp [processFrame]⟩⟩
  | hand t lx ly zs =>
    simp only [processFrame]
    rcases mapPositionToNote_cases H (ly * H) t { s with handDetected := true } with
      hm | ⟨hrate, i, hi0, hi6, hne, hm⟩
    all_goals rw [hm]
    all_goals dsimp only
    · -- no commit
      rcases hoc :
          (updateOctaveShift zs (calculateDynamicVolume W (lx * W)
            { s with handDetected := true })).currentNote with _ | note
      all_goals dsimp only
      · refine ⟨by simp, by simp, ?_, Or.inl ⟨rfl, by simp, by simp⟩⟩
        rcases updateOctaveShift_octave zs
            (calculateDynamicVolume W (lx * W) { s with handDetected := true }) with h | h
        · exact Or.inl (by simpa using h)
        · exact Or.inr h
      · refine ⟨by simp, by simp, ?_, Or.inl ⟨rfl, by simp, by simp⟩⟩
        rcases updateOctaveShift_octave zs
            (calculateDynamicVolume W (lx * W) { s with handDetected := true }) with h | h
        · exact Or.inl (by simpa using h)
        · exact Or.inr (by simpa using h)
    · -- commit at time t
      set base : AppState :=
        { s with handDetected := true, currentNoteIndex := i,
                 currentNote := NOTES.get? i.toNat,
                 lastNoteChangeY := ly * H, lastNoteChangeTime := t } with hbase
      have hbuf : ∀ u : AppState, u = recordNote t base →
          (s.isRecording = false ∧ u.recordedNotes = s.recordedNotes) ∨
          (s.isRecording = true ∧
           ∃ (j : ℤ) (note : Note), 0 ≤ j ∧ j ≤ 6 ∧
             NOTES.get? j.toNat = some note ∧
             u.recordedNotes = s.recordedNotes ++
               [⟨t - s.recordingStartTime, j, s.currentOctaveShift,
                 getFrequencyWithOctave note.frequency s.currentOctaveShift⟩]) := by
        intro u hu
        cases hr : s.isRecording with
        | false =>
          refine Or.inl ⟨rfl, ?_⟩
          rw [hu, recordNote_buffer_of_not_recording t base (by rw [hbase]; exact hr)]
        | true =>
          obtain ⟨note, hnote⟩ := NOTES_get?_bounds i hi0 hi6
          refine Or.inr ⟨rfl, i, note, hi0, hi6, hnote, ?_⟩
          rw [hu, recordNote_buffer_of_recording t base note
            (by rw [hbase]; exact hr) (by rw [hbase]; exact hnote)]
      have hlast : ∀ u : AppState, u = recordNote t base → u.lastNoteChangeTime = t := by
        intro u hu
        rw [hu, recordNote_lastNoteChangeTime, hbase]
      have hrec2 : ∀ u : AppState, u = recordNote t base → u.isRecording = s.isRecording := by
        intro u hu
        rw [hu, recordNote_isRecording, hbase]
      have hstart2 : ∀ u : AppState, u = recordNote t base →
          u.recordingStartTime = s.recordingStartTime := by
        intro u hu
        rw [hu, recordNote_recordingStartTime, hbase]
      have hoct2 : ∀ u : AppState, u = recordNote t base →
          u.currentOctaveShift = s.currentOctaveShift := by
        intro u hu
        rw [hu, recordNote_currentOctaveShift, hbase]
      rcases hoc :
          (updateOctaveShift zs (calculateDynamicVolume W (lx * W)
            (recordNote t base))).currentNote with _ | note2
      all_goals dsimp only
      all_goals
        refine ⟨?_, ?_, ?_, Or.inr ⟨t, rfl, by simpa using hrate, ?_, ?_⟩⟩
      all_goals
        try simp only [playNote_fst_isRecording, playNote_fst_recordingStartTime,
          playNote_fst_currentOctaveShift, playNote_fst_lastNoteChangeTime,
          playNote_fst_recordedNotes, updateOctaveShift_isRecording,
          updateOctaveShift_recordingStartTime, updateOctaveShift_lastNoteChangeTime,
          updateOctaveShift_recordedNotes, calculateDynamicVolume_isRecording,
          calculateDynamicVolume_recordingStartTime,
          calculateDynamicVolume_currentOctaveShift,
          calculateDynamicVolume_lastNoteChangeTime, calculateDynamicVolume_recordedNotes]
      · exact hrec2 _ rfl
      · exact hstart2 _ rfl
      · rcases updateOctaveShift_octave zs
            (calculateDynamicVolume W (lx * W) (recordNote t base)) with h | h
        · refine Or.inl ?_
          rw [h, calculateDynamicVolume_currentOctaveShift]
          try exact hoct2 _ rfl
        · exact Or.inr h
      · exact hlast _ rfl
      · exact hbuf _ rfl
      · exact hrec2 _ rfl
      · exact hstart2 _ rfl
      · rcases updateOctaveShift_octave zs
            (calculateDynamicVolume W (lx * W) (recordNote t base)) with h | h
        · refine Or.inl ?_
          rw [h, calculateDynamicVolume_currentOctaveShift]
          try exact hoct2 _ rfl
        · exact Or.inr h
      · exact hlast _ rfl
      · exact hbuf _ rfl


/-! ### Facts about folds of frames -/

/-- The committed note-change times of any run form a chain starting from the
current rate-limit timestamp in which consecutive entries are at least
`MIN_NOTE_CHANGE_INTERVAL` apart. -/
lemma processFrames_chain (W H : ℚ) (fs : List Frame) (s : AppState) :
    List.Chain (fun a b => a + MIN_NOTE_CHANGE_INTERVAL ≤ b)
      s.lastNoteChangeTime (processFrames W H fs s).2.1 := by
  induction fs generalizing s with
  | nil => exact List.Chain.nil
  | cons f rest ih =>
    simp only [processFrames]
    rcases (processFrame_master W H s f).2.2.2 with ⟨hnone, hlast, _⟩ |
      ⟨t, hsome, hge, hlast, _⟩
    · rw [hnone]
      simpa [← hlast] using ih (processFrame W H s f).1
    · rw [hsome]
      refine List.chain_cons.mpr ⟨hge, ?_⟩
      simpa [← hlast] using ih (processFrame W H s f).1

/-- While the recording flag is up, a run of frames keeps it up, keeps the
session start time, and appends exactly the committed changes (each
timestamped relative to the session start) to the buffer. -/
lemma processFrames_recording (W H : ℚ) (fs : List Frame) (s : AppState)
    (hrec : s.isRecording = true) :
    (processFrames W H fs s).1.isRecording = true ∧
    (processFrames W H fs s).1.recordingStartTime = s.recordingStartTime ∧
    (processFrames W H fs s).1.recordedNotes.map RecordedEvent.timestamp
      = s.recordedNotes.map RecordedEvent.timestamp
        ++ (processFrames W H fs s).2.1.map (fun u => u - s.recordingStartTime) := by
  induction fs generalizing s with
  | nil => simp [processFrames, hrec]
  | cons f rest ih =>
    simp only [processFrames]
    obtain ⟨hR, hS, _, hcase⟩ := processFrame_master W H s f
    have hrec1 : (processFrame W H s f).1.isRecording = true := hR.trans hrec
    obtain ⟨ih1, ih2, ih3⟩ := ih (processFrame W H s f).1 hrec1
    refine ⟨ih1, ih2.trans hS, ?_⟩
    rcases hcase with ⟨hnone, _, hbufeq⟩ | ⟨t, hsome, _, _, hbufcase⟩
    · rw [hnone, ih3, hbufeq, hS]
      simp
    · rcases hbufcase with ⟨hfalse, _⟩ | ⟨_, i, note, _, _, _, hbufeq⟩
      · rw [hfalse] at hrec
        exact absurd hrec (by simp)
      · rw [hsome, ih3, hbufeq, hS]
        simp

/-- A run of frames never touches the recording flag or session start. -/
lemma processFrames_flags (W H : ℚ) (fs : List Frame) (s : AppState) :
    (processFrames W H fs s).1.isRecording = s.isRecording ∧
    (processFrames W H fs s).1.recordingStartTime = s.recordingStartTime := by
  induction fs generalizing s with
  | nil => exact ⟨rfl, rfl⟩
  | cons f rest ih =>
    simp only [processFrames]
    obtain ⟨hR, hS, _, _⟩ := processFrame_master W H s f
    obtain ⟨ih1, ih2⟩ := ih (processFrame W H s f).1
    exact ⟨ih1.trans hR, ih2.trans hS⟩


/-! ### Closed form and monotonicity of the default volume multiplier -/

/-- With the default options, both interpolation branches of
`calculateDynamicVolumeMultiplier` have slope `1/2`, so the whole function
collapses to a clamped affine map of the clamped ratio. -/
lemma calcMult_closed (x W : ℚ) (hW : 0 < W) :
    calculateDynamicVolumeMultiplier x W defaultVolumeOptions
      = clamp (1 + clamp ((x - W / 2) / (W / 2)) (-1) 1 * (1 / 2)) (1 / 2) (3 / 2) := by
  have hc : W / 2 ≠ 0 := by positivity
  unfold calculateDynamicVolumeMultiplier defaultVolumeOptions
  dsimp only
  rw [if_pos hc]
  split_ifs with h
  · norm_num [min_def, max_def]
  · norm_num [min_def, max_def]

lemma calcMult_mono (W : ℚ) (hW : 0 < W) {x x' : ℚ} (h : x ≤ x') :
    calculateDynamicVolumeMultiplier x W defaultVolumeOptions ≤
      calculateDynamicVolumeMultiplier x' W defaultVolumeOptions := by
  rw [calcMult_closed x W hW, calcMult_closed x' W hW]
  have hc : (0 : ℚ) < W / 2 := by positivity
  have hr : (x - W / 2) / (W / 2) ≤ (x' - W / 2) / (W / 2) :=
    (div_le_div_right hc).mpr (by linarith)
  have hcl : clamp ((x - W / 2) / (W / 2)) (-1) 1
      ≤ clamp ((x' - W / 2) / (W / 2)) (-1) 1 := clamp_mono hr
  exact clamp_mono (by nlinarith)

/-- Claim C1: with the default bounds `0.5`/`1.5`, the volume multiplier of
`src/utils.js` maps the centre of a positive-width canvas to `1.0`, the left
edge to `0.5`, the right edge to `1.5`, and is monotone non-decreasing in
the pointer x-position. -/
theorem C1_volume_multiplier (W : ℚ) (hW : 0 < W) :
    calculateDynamicVolumeMultiplier (W / 2) W defaultVolumeOptions = 1 ∧
    calculateDynamicVolumeMultiplier 0 W defaultVolumeOptions = 0.5 ∧
    calculateDynamicVolumeMultiplier W W defaultVolumeOptions = 1.5 ∧
    ∀ x x' : ℚ, x ≤ x' →
      calculateDynamicVolumeMultiplier x W defaultVolumeOptions ≤
        calculateDynamicVolumeMultiplier x' W defaultVolumeOptions := by
  have hc : W / 2 ≠ 0 := by positivity
  refine ⟨?_, ?_, ?_, fun x x' h => calcMult_mono W hW h⟩
  · rw [calcMult_closed _ W hW, sub_self, zero_div]
    norm_num [clamp]
  · rw [calcMult_closed _ W hW, zero_sub, neg_div, div_self hc]
    norm_num [clamp, min_def, max_def]
  · rw [calcMult_closed _ W hW, show W - W / 2 = W / 2 by ring, div_self hc]
    norm_num [clamp, min_def, max_def]

/-- Witness for C1 at the concrete width `W = 800`. -/
theorem C1_volume_multiplier_witness :
    calculateDynamicVolumeMultiplier 400 800 defaultVolumeOptions = 1 ∧
    calculateDynamicVolumeMultiplier 0 800 defaultVolumeOptions = 0.5 ∧
    calculateDynamicVolumeMultiplier 800 800 defaultVolumeOptions = 1.5 ∧
    ∀ x x' : ℚ, x ≤ x' →
      calculateDynamicVolumeMultiplier x 800 defaultVolumeOptions ≤
        calculateDynamicVolumeMultiplier x' 800 defaultVolumeOptions := by
  have h := C1_volume_multiplier 800 (by norm_num)
  norm_num at h ⊢
  exact h

/-- Claim C6: at canvas width `0` the zero-width guard of
`calculateDynamicVolumeMultiplier` returns the neutral multiplier `1.0`
for every pointer position (in this exact-rational embedding the guarded
branch never divides, so no `NaN`/infinite value can arise). -/
theorem C6_zero_width_guard (x : ℚ) :
    calculateDynamicVolumeMultiplier x 0 defaultVolumeOptions = 1 := by
  unfold calculateDynamicVolumeMultiplier defaultVolumeOptions
  norm_num [clamp, min_def, max_def]


lemma chain_chain' {α : Type} {R : α → α → Prop} {a : α} {l : List α}
    (h : List.Chain R a l) : List.Chain' R l := by
  cases l with
  | nil => exact List.chain'_nil
  | cons b t => exact (List.chain_cons.mp h).2

/-- Claim C3: over any sequence of processed frames, consecutive committed
note changes are at least `MIN_NOTE_CHANGE_INTERVAL = 100` ms apart,
whatever the call frequency (and whatever state the selector starts in). -/
theorem C3_rate_limit (W H : ℚ) (fs : List Frame) (s : AppState) :
    List.Chain' (fun a b => a + MIN_NOTE_CHANGE_INTERVAL ≤ b)
      (processFrames W H fs s).2.1 :=
  chain_chain' (processFrames_chain W H fs s)

/-- Claim C4: while a note `i` is selected, any pointer `y` within the
hysteresis dead zone of the last committed `y` leaves the selection at `i`,
even when the raw zone of `y` is different. -/
theorem C4_hysteresis_invariant (H y now : ℚ) (s : AppState) (i : ℤ)
    (hcur : s.currentNoteIndex = i) (hne : i ≠ -1)
    (hy : |y - s.lastNoteChangeY| < NOTE_CHANGE_THRESHOLD) :
    (mapPositionToNote H y now s).1.currentNoteIndex = i := by
  have hstay : (if s.currentNoteIndex ≠ -1 ∧
      |y - s.lastNoteChangeY| < NOTE_CHANGE_THRESHOLD ∧
      rawNoteIndex H y ≠ s.currentNoteIndex
      then s.currentNoteIndex else rawNoteIndex H y) = s.currentNoteIndex := by
    by_cases hr : rawNoteIndex H y = s.currentNoteIndex
    · split_ifs <;> [rfl; exact hr]
    · rw [if_pos ⟨by rw [hcur]; exact hne, hy, hr⟩]
  unfold mapPositionToNote
  dsimp only
  rw [hstay, if_neg (by simp)]
  exact hcur


/-! ### The selector after a detection gap -/

/-- When no note is selected (`currentNoteIndex = -1`), hysteresis is
vacuous: the next frame commits exactly when the (retained) rate-limit
timestamp allows it. -/
lemma mapPositionToNote_fresh (H y now : ℚ) (s : AppState)
    (hidx : s.currentNoteIndex = -1) :
    (MIN_NOTE_CHANGE_INTERVAL ≤ now - s.lastNoteChangeTime →
      (mapPositionToNote H y now s).2 = some now ∧
      (mapPositionToNote H y now s).1.currentNoteIndex = rawNoteIndex H y) ∧
    (¬MIN_NOTE_CHANGE_INTERVAL ≤ now - s.lastNoteChangeTime →
      mapPositionToNote H y now s = (s, none)) := by
  unfold mapPositionToNote
  dsimp only
  rw [if_neg (show ¬(s.currentNoteIndex ≠ -1 ∧
      |y - s.lastNoteChangeY| < NOTE_CHANGE_THRESHOLD ∧
      rawNoteIndex H y ≠ s.currentNoteIndex) from fun hcon => hcon.1 hidx)]
  have hne : rawNoteIndex H y ≠ s.currentNoteIndex := by
    have h0 := (rawNoteIndex_bounds H y).1
    rw [hidx]
    omega
  rw [if_pos hne]
  constructor
  · intro hrate
    rw [if_pos hrate]
    exact ⟨rfl, by rw [recordNote_currentNoteIndex]⟩
  · intro hrate
    rw [if_neg hrate]

/-- Lifting `mapPositionToNote_fresh` to a whole hand frame: with no note
selected, the frame commits exactly when the retained rate-limit timestamp
allows it (then the raw zone note becomes selected), and on suppression no
note becomes selected. -/
lemma processFrame_hand_commit_iff (W H t lx ly : ℚ) (zs : List ℚ) (s : AppState)
    (hidx : s.currentNoteIndex = -1) :
    (MIN_NOTE_CHANGE_INTERVAL ≤ t - s.lastNoteChangeTime →
      (processFrame W H s (Frame.hand t lx ly zs)).2.1 = some t ∧
      (processFrame W H s (Frame.hand t lx ly zs)).1.currentNoteIndex
        = rawNoteIndex H (ly * H)) ∧
    (¬MIN_NOTE_CHANGE_INTERVAL ≤ t - s.lastNoteChangeTime →
      (processFrame W H s (Frame.hand t lx ly zs)).2.1 = none ∧
      (processFrame W H s (Frame.hand t lx ly zs)).1.currentNoteIndex = -1) := by
  have hidx' : ({ s with handDetected := true } : AppState).currentNoteIndex = -1 := hidx
  have hfresh := mapPositionToNote_fresh H (ly * H) t { s with handDetected := true } hidx'
  constructor
  · intro hrate
    have h1 := hfresh.1 hrate
    simp only [processFrame]
    rcases hoc : (updateOctaveShift zs (calculateDynamicVolume W (lx * W)
        (mapPositionToNote H (ly * H) t
          { s with handDetected := true }).1)).currentNote with _ | note
    all_goals dsimp only
    all_goals
      exact ⟨h1.1, by
        simp only [playNote_fst_currentNoteIndex, updateOctaveShift_currentNoteIndex,
          calculateDynamicVolume_currentNoteIndex]
        exact h1.2⟩
  · intro hrate
    have h2 := hfresh.2 hrate
    simp only [processFrame]
    rw [h2]
    dsimp only
    rcases hoc : (updateOctaveShift zs (calculateDynamicVolume W (lx * W)
        { s with handDetected := true })).currentNote with _ | note
    all_goals dsimp only
    all_goals exact ⟨rfl, by simp [hidx]⟩

/-- Claim C2, corrected: a no-hand frame resets `currentNoteIndex` to `-1`
and clears `currentNote`, but it retains `lastNoteChangeY` and
`lastNoteChangeTime`.  Consequently the first frame after the hand
reappears skips hysteresis (there is no previous selection) but is still
subject to the rate limiter: it commits a change — selecting the raw zone
note of the new pointer position — exactly when at least
`MIN_NOTE_CHANGE_INTERVAL` ms have passed since the last committed change
before the gap; otherwise the frame commits nothing and no note is
selected. -/
theorem C2_reset_on_hand_absent (W H tg t lx ly : ℚ) (zs : List ℚ) (s : AppState) :
    (processFrame W H s (Frame.noHand tg)).1.currentNoteIndex = -1 ∧
    (processFrame W H s (Frame.noHand tg)).1.currentNote = none ∧
    (processFrame W H s (Frame.noHand tg)).1.lastNoteChangeY = s.lastNoteChangeY ∧
    (processFrame W H s (Frame.noHand tg)).1.lastNoteChangeTime = s.lastNoteChangeTime ∧
    (s.lastNoteChangeTime + MIN_NOTE_CHANGE_INTERVAL ≤ t →
      (processFrame W H (processFrame W H s (Frame.noHand tg)).1
        (Frame.hand t lx ly zs)).2.1 = some t ∧
      (processFrame W H (processFrame W H s (Frame.noHand tg)).1
        (Frame.hand t lx ly zs)).1.currentNoteIndex = rawNoteIndex H (ly * H)) ∧
    (t < s.lastNoteChangeTime + MIN_NOTE_CHANGE_INTERVAL →
      (processFrame W H (processFrame W H s (Frame.noHand tg)).1
        (Frame.hand t lx ly zs)).2.1 = none ∧
      (processFrame W H (processFrame W H s (Frame.noHand tg)).1
        (Frame.hand t lx ly zs)).1.currentNoteIndex = -1) := by
  have hlast : (processFrame W H s (Frame.noHand tg)).1.lastNoteChangeTime
      = s.lastNoteChangeTime := by simp [processFrame]
  refine ⟨rfl, rfl, by simp [processFrame], hlast, ?_, ?_⟩
  · intro hrate
    exact (processFrame_hand_commit_iff W H t lx ly zs _ rfl).1
      (by rw [hlast]; linarith)
  · intro hrate
    exact (processFrame_hand_commit_iff W H t lx ly zs _ rfl).2
      (by rw [hlast]; intro hcon; linarith)


/-! ### Cancellation of playback -/

/-- `stopNote` always leaves the trigger silent (given the invariant that a
sounding note implies a live synth), emits at most a `release`, and emits
exactly one `release` when a note was sounding. -/
lemma stopNote_silent (s : AppState) (hinv : s.isPlaying = true → s.synthPresent = true) :
    (stopNote s).1.isPlaying = false ∧
    (∀ c ∈ (stopNote s).2, c = ToneCmd.release) ∧
    (s.isPlaying = true → (stopNote s).2 = [ToneCmd.release]) := by
  unfold stopNote
  split_ifs with h
  · exact ⟨rfl, by simp, fun _ => rfl⟩
  · dsimp only
    have hp : s.isPlaying = false := by
      cases hq : s.isPlaying
      · rfl
      · exact absurd ⟨hinv hq, hq⟩ h
    exact ⟨hp, by simp, fun hc => absurd (hp.symm.trans hc) (by simp)⟩

/-- Claim C7: stopping playback mid-run (the toggle branch of
`playSequence`) clears the playback flag, silences the trigger (releasing
the sounding note, if any) and starts no new run; and any scheduled
`playNext` step that executes with the flag already cleared issues no
`attack`/`retarget` (at most a `release`), leaves the trigger silent, and
schedules nothing further. -/
theorem C7_cancellation (idxs : List ℕ) (tstop : ℚ) (s : AppState)
    (hrun : s.isPlayingRecording = true)
    (hinv : s.isPlaying = true → s.synthPresent = true) :
    ((playSequence idxs tstop s).1.isPlayingRecording = false ∧
     (playSequence idxs tstop s).1.isPlaying = false ∧
     (playSequence idxs tstop s).2.1 = none ∧
     (s.isPlaying = true → (playSequence idxs tstop s).2.2 = [ToneCmd.release])) ∧
    (∀ (s' : AppState) (run : PlaybackRun) (now : ℚ),
      s'.isPlayingRecording = false →
      (s'.isPlaying = true → s'.synthPresent = true) →
      (playNextStep s' run now).1.isPlaying = false ∧
      (playNextStep s' run now).1.isPlayingRecording = false ∧
      (∀ c ∈ (playNextStep s' run now).2.2.1, c = ToneCmd.release) ∧
      (playNextStep s' run now).2.2.2 = none) := by
  constructor
  · unfold playSequence
    rw [if_pos (by simp [hrun])]
    have hs := stopNote_silent { s with isPlayingRecording := false } hinv
    refine ⟨?_, hs.1, rfl, hs.2.2⟩
    simp
  · intro s' run now hflag hinv'
    unfold playNextStep
    rw [if_pos (Or.inl (by simp [hflag]))]
    have hs := stopNote_silent { s' with isPlayingRecording := false } hinv'
    exact ⟨hs.1, by simp, hs.2.1, rfl⟩

/-! ### The recording round trip -/

/-- Claim C8: starting a recording session wipes the buffer and the
selection; a session that sees `N` committed note changes ends with exactly
`N` recorded events whose timestamps are non-decreasing; and a confirmed
`clearRecording` on a non-empty buffer empties both the buffer and the
selection. -/
theorem C8_recording_roundtrip (W H t0 : ℚ) (s0 : AppState) (fs : List Frame)
    (haudio : s0.audioInitialized = true) (hnot : s0.isRecording = false) :
    (toggleRecording t0 s0).isRecording = true ∧
    (toggleRecording t0 s0).recordedNotes = [] ∧
    (toggleRecording t0 s0).selectedNoteIndices = ∅ ∧
    (processFrames W H fs (toggleRecording t0 s0)).1.recordedNotes.length
      = (processFrames W H fs (toggleRecording t0 s0)).2.1.length ∧
    List.Chain' (· ≤ ·)
      ((processFrames W H fs (toggleRecording t0 s0)).1.recordedNotes.map
        RecordedEvent.timestamp) ∧
    (∀ s : AppState, s.recordedNotes ≠ [] →
      (clearRecording true s).1.recordedNotes = [] ∧
      (clearRecording true s).1.selectedNoteIndices = ∅) := by
  have hstart : toggleRecording t0 s0
      = { s0 with isRecording := true, recordedNotes := [],
                  selectedNoteIndices := ∅, recordingStartTime := t0 } := by
    unfold toggleRecording
    rw [if_neg (by simp [haudio]), if_pos (by simp [hnot])]
  have hrec1 : (toggleRecording t0 s0).isRecording = true := by rw [hstart]
  obtain ⟨hR, hS, hmap⟩ := processFrames_recording W H fs (toggleRecording t0 s0) hrec1
  have hempty : (toggleRecording t0 s0).recordedNotes = [] := by rw [hstart]
  refine ⟨hrec1, hempty, by rw [hstart], ?_, ?_, ?_⟩
  · have hlen := congrArg List.length hmap
    rw [hempty] at hlen
    simpa using hlen
  · rw [hmap, hempty]
    simp only [List.map_nil, List.nil_append]
    rw [List.chain'_map]
    have hch : List.Chain' (fun a b => a + MIN_NOTE_CHANGE_INTERVAL ≤ b)
        (processFrames W H fs (toggleRecording t0 s0)).2.1 :=
      chain_chain' (processFrames_chain W H fs (toggleRecording t0 s0))
    exact hch.imp (fun a b hab => by
      have : (0:ℚ) < MIN_NOTE_CHANGE_INTERVAL := by norm_num [MIN_NOTE_CHANGE_INTERVAL]
      linarith)
  · intro s hne
    unfold clearRecording
    rw [if_neg (by simpa using hne), if_pos rfl]
    exact ⟨rfl, rfl⟩

/-! ### Empty-workflow conditions -/

/-- Claim C9: invoking play-all with an empty buffer, play-selected with an
empty selection, or clear with an empty buffer reports a user-facing
message and returns the state unchanged (no playback run is started, no
synth command is issued). -/
theorem C9_empty_workflow (tp : ℚ) (cok : Bool) (s : AppState) :
    (s.recordedNotes = [] →
      playRecording tp s = (s, none, [],
        some "No notes recorded yet! Click Record while playing to capture notes.")) ∧
    (s.selectedNoteIndices = ∅ →
      playSelectedNotes tp s = (s, none, [],
        some "No notes selected! Click Select All or check notes to play.")) ∧
    (s.recordedNotes = [] →
      clearRecording cok s = (s, some "No recording to clear!")) := by
  refine ⟨?_, ?_, ?_⟩
  · intro h
    unfold playRecording
    rw [if_pos (by simp [h])]
  · intro h
    unfold playSelectedNotes
    rw [if_pos (by simp [h])]
  · intro h
    unfold clearRecording
    rw [if_pos (by simp [h])]


/-! ### Well-formedness of recorded events -/

/-- The first component of a `playNext` step is one of: the state unchanged,
the stop-path state, or the fire-path state built from a buffered event. -/
lemma playNextStep_fst (s : AppState) (run : PlaybackRun) (now : ℚ) :
    (playNextStep s run now).1 = s ∨
    (playNextStep s run now).1 = (stopNote { s with isPlayingRecording := false }).1 ∨
    ∃ (ridx : ℕ) (note : RecordedEvent), s.recordedNotes.get? ridx = some note ∧
      (playNextStep s run now).1 =
        { (playNote note.frequency s).1 with
          currentNote := NOTES.get? note.noteIndex.toNat,
          currentOctaveShift := note.octaveShift } := by
  unfold playNextStep
  by_cases h1 : ¬s.isPlayingRecording = true ∨ run.noteIndices.length ≤ run.noteIdx
  · rw [if_pos h1]
    right; left; rfl
  · rw [if_neg h1]
    cases hg1 : run.noteIndices.get? run.noteIdx with
    | none => exact Or.inl rfl
    | some ridx =>
      dsimp only
      cases hg2 : s.recordedNotes.get? ridx with
      | none => exact Or.inl rfl
      | some note =>
        dsimp only
        by_cases h2 : note.timestamp ≤ now - run.startTime
        · rw [if_pos h2]
          by_cases h3 : s.synthPresent = true ∧ s.audioInitialized = true
          · rw [if_pos h3]
            refine Or.inr (Or.inr ⟨ridx, note, hg2, ?_⟩)
            dsimp only
            split_ifs
            all_goals first | rfl | (split <;> first | rfl | (split <;> rfl))
          · rw [if_neg h3]
            refine Or.inl ?_
            dsimp only
            split_ifs
            all_goals first | rfl | (split <;> first | rfl | (split <;> rfl))
        · rw [if_neg h2]
          exact Or.inl rfl

/-- Claim C10: every `RecordedEvent` appended by `recordNote` is well-formed
(its `noteIndex` in `[0,6]`, its `octaveShift` in `[-2,2]`, and its stored
frequency equal to `NOTES[noteIndex].frequency * 2 ^ octaveShift` at the
moment of recording): the invariant `wfState` holds initially and is
preserved by every operation that touches the state, and it forces every
buffered event to be well-formed. -/
theorem C10_recorded_event_wellformed :
    wfState initialState ∧
    (∀ (W H : ℚ) (s : AppState) (f : Frame),
      wfState s → wfState (processFrame W H s f).1) ∧
    (∀ (t : ℚ) (s : AppState), wfState s → wfState (toggleRecording t s)) ∧
    (∀ (c : Bool) (s : AppState), wfState s → wfState (clearRecording c s).1) ∧
    (∀ (idxs : List ℕ) (t : ℚ) (s : AppState),
      wfState s → wfState (playSequence idxs t s).1) ∧
    (∀ (s : AppState) (run : PlaybackRun) (t : ℚ),
      wfState s → wfState (playNextStep s run t).1) ∧
    (∀ s : AppState, wfState s → ∀ e ∈ s.recordedNotes,
      0 ≤ e.noteIndex ∧ e.noteIndex ≤ 6 ∧ -2 ≤ e.octaveShift ∧ e.octaveShift ≤ 2 ∧
      (NOTES.get? e.noteIndex.toNat).map
        (fun n => getFrequencyWithOctave n.frequency e.octaveShift)
        = some e.frequency) := by
  refine ⟨⟨by norm_num [initialState], by norm_num [initialState], by simp [initialState]⟩, ?_, ?_, ?_, ?_, ?_, ?_⟩
  · -- processFrame preserves wfState
    intro W H s f hs
    obtain ⟨hR, hS, hoct, hcase⟩ := processFrame_master W H s f
    refine ⟨?_, ?_, ?_⟩
    · rcases hoct with h | h
      · rw [h]; exact hs.1
      · exact h.1
    · rcases hoct with h | h
      · rw [h]; exact hs.2.1
      · exact h.2
    · rcases hcase with ⟨_, _, hbuf⟩ | ⟨t, _, _, _, hbufcase⟩
      · rw [hbuf]; exact hs.2.2
      · rcases hbufcase with ⟨_, hbuf⟩ | ⟨_, i, note, hi0, hi6, hnote, hbuf⟩
        · rw [hbuf]; exact hs.2.2
        · rw [hbuf]
          intro e he
          rcases List.mem_append.mp he with hold | hnew
          · exact hs.2.2 e hold
          · rcases List.mem_singleton.mp hnew with rfl
            exact ⟨hi0, hi6, hs.1, hs.2.1, by rw [hnote]; rfl⟩
  · -- toggleRecording preserves wfState
    intro t s hs
    unfold toggleRecording
    split_ifs
    · exact hs
    · exact ⟨hs.1, hs.2.1, by simp⟩
    · exact ⟨hs.1, hs.2.1, hs.2.2⟩
  · -- clearRecording preserves wfState
    intro c s hs
    unfold clearRecording
    split_ifs
    · exact hs
    · exact ⟨hs.1, hs.2.1, by simp⟩
    · exact hs
  · -- playSequence preserves wfState
    intro idxs t s hs
    unfold playSequence
    split_ifs
    · exact ⟨by simpa using hs.1, by simpa using hs.2.1, by simpa using hs.2.2⟩
    · exact ⟨hs.1, hs.2.1, hs.2.2⟩
  · -- playNextStep preserves wfState
    intro s run t hs
    rcases playNextStep_fst s run t with h | h | ⟨ridx, note, hget, h⟩
    · rw [h]; exact hs
    · rw [h]
      exact ⟨by simpa using hs.1, by simpa using hs.2.1, by simpa using hs.2.2⟩
    · have hwf := hs.2.2 note (List.get?_mem hget)
      rw [h]
      exact ⟨by simpa using hwf.2.2.1, by simpa using hwf.2.2.2.1, by simpa using hs.2.2⟩
  · -- wfState forces every buffered event to be well-formed
    intro s hs e he
    exact hs.2.2 e he


/-! ### Concrete evaluations

The arithmetic of `ℚ` in the Batteries library is deliberately marked
irreducible; for the concrete runs below it is restored to the usual
reducibility so that `decide` can evaluate the embedded operations. -/

section ConcreteRuns

attribute [local semireducible] Rat.add Rat.mul Rat.inv Rat.sub Rat.ofScientific

/-- Claim C5: with the default configuration `minZ = -0.1`, `maxZ = 0.05`,
the octave mapper sends `minZ` to `-2`, `maxZ` to `2` and the midpoint to
`0`, and every depth outside `[minZ, maxZ]` yields a value clamped into
`[-2, 2]`. -/
theorem C5_octave_mapper :
    zToOctaveShift zMinDefault zMinDefault zMaxDefault = -2 ∧
    zToOctaveShift zMaxDefault zMinDefault zMaxDefault = 2 ∧
    zToOctaveShift ((zMinDefault + zMaxDefault) / 2) zMinDefault zMaxDefault = 0 ∧
    ∀ z : ℚ, z < zMinDefault ∨ zMaxDefault < z →
      -2 ≤ zToOctaveShift z zMinDefault zMaxDefault ∧
      zToOctaveShift z zMinDefault zMaxDefault ≤ 2 := by
  refine ⟨by decide, by decide, by decide, ?_⟩
  intro z hz
  unfold zToOctaveShift clampZ
  dsimp only
  exact ⟨le_max_left _ _, max_le (by norm_num) (min_le_left _ _)⟩

/-- Witness for C5's clamping conjunct at the out-of-range depth `z = 1`. -/
theorem C5_octave_mapper_witness :
    (zMaxDefault < 1) ∧
    (-2 ≤ zToOctaveShift 1 zMinDefault zMaxDefault ∧
     zToOctaveShift 1 zMinDefault zMaxDefault ≤ 2) :=
  ⟨by decide, C5_octave_mapper.2.2.2 1 (Or.inr (by decide))⟩

set_option maxRecDepth 1000000 in
/-- Counterexample to claim C2 as stated: starting from the initial state, a
hand frame at `t = 1000` with the pointer at `y = 350` commits a change; a
no-hand frame follows.  Neither cached value is cleared by the reset
(`lastNoteChangeTime` is still `1000` and `lastNoteChangeY` still `350`,
not `0`), and when the hand reappears at `t = 1050` (only 50 ms after the
last committed change) the frame does NOT commit unconditionally: the
selector still holds `currentNoteIndex = -1` and the committed-change list
still contains only the change at `1000`. -/
theorem C2_counterexample :
    (processFrames 800 700
      [Frame.hand 1000 (1/2) (1/2) zsMid, Frame.noHand 1010]
      initialState).1.lastNoteChangeTime = 1000 ∧
    (processFrames 800 700
      [Frame.hand 1000 (1/2) (1/2) zsMid, Frame.noHand 1010]
      initialState).1.lastNoteChangeTime ≠ 0 ∧
    (processFrames 800 700
      [Frame.hand 1000 (1/2) (1/2) zsMid, Frame.noHand 1010]
      initialState).1.lastNoteChangeY = 350 ∧
    (processFrames 800 700
      [Frame.hand 1000 (1/2) (1/2) zsMid, Frame.noHand 1010]
      initialState).1.lastNoteChangeY ≠ 0 ∧
    (processFrames 800 700
      [Frame.hand 1000 (1/2) (1/2) zsMid, Frame.noHand 1010,
       Frame.hand 1050 (1/2) (1/14) zsMid] initialState).1.currentNoteIndex = -1 ∧
    (processFrames 800 700
      [Frame.hand 1000 (1/2) (1/2) zsMid, Frame.noHand 1010,
       Frame.hand 1050 (1/2) (1/14) zsMid] initialState).2.1 = [1000] :=
  ⟨by decide, by decide, by decide, by decide, by decide, by decide⟩

/-- Witness for the corrected C2, exercising both directions of the
commit-iff: a reappearance frame at `t = 50` (less than 100 ms after the
initial `lastNoteChangeTime = 0`) commits nothing and selects no note,
while a reappearance frame at `t = 150` (past the rate limit) commits and
selects the raw zone of the new pointer position (zone 0). -/
theorem C2_reset_on_hand_absent_witness :
    ((processFrame 800 700 (processFrame 800 700 initialState (Frame.noHand 10)).1
        (Frame.hand 50 (1/2) (1/14) zsMid)).2.1 = none ∧
     (processFrame 800 700 (processFrame 800 700 initialState (Frame.noHand 10)).1
        (Frame.hand 50 (1/2) (1/14) zsMid)).1.currentNoteIndex = -1) ∧
    ((processFrame 800 700 (processFrame 800 700 initialState (Frame.noHand 10)).1
        (Frame.hand 150 (1/2) (1/14) zsMid)).2.1 = some 150 ∧
     (processFrame 800 700 (processFrame 800 700 initialState (Frame.noHand 10)).1
        (Frame.hand 150 (1/2) (1/14) zsMid)).1.currentNoteIndex
       = rawNoteIndex 700 (1/14 * 700)) ∧
    rawNoteIndex 700 (1/14 * 700) = 0 :=
  ⟨(C2_reset_on_hand_absent 800 700 10 50 (1/2) (1/14) zsMid initialState).2.2.2.2.2
     (by norm_num [initialState, MIN_NOTE_CHANGE_INTERVAL]),
   (C2_reset_on_hand_absent 800 700 10 150 (1/2) (1/14) zsMid initialState).2.2.2.2.1
     (by norm_num [initialState, MIN_NOTE_CHANGE_INTERVAL]),
   by decide⟩

/-- Witness for C4: a note committed at `y = 395` (zone 3) stays selected
when the pointer drifts to `y = 405` (raw zone 4, but only 10 px away). -/
theorem C4_hysteresis_invariant_witness :
    (mapPositionToNote 700 405 1050
      { initialState with currentNoteIndex := 3,
                          currentNote := NOTES.get? 3,
                          lastNoteChangeY := 395,
                          lastNoteChangeTime := 1000 }).1.currentNoteIndex = 3 :=
  C4_hysteresis_invariant 700 405 1050 _ 3 rfl (by decide) (by decide)

/-- Witness for C7 at a concrete sounding, playing-back state. -/
theorem C7_cancellation_witness :
    (playSequence [0] 2000
      { initialState with isPlayingRecording := true, isPlaying := true }).1.isPlayingRecording
        = false ∧
    (playSequence [0] 2000
      { initialState with isPlayingRecording := true, isPlaying := true }).1.isPlaying
        = false ∧
    (playSequence [0] 2000
      { initialState with isPlayingRecording := true, isPlaying := true }).2.2
        = [ToneCmd.release] :=
  ⟨(C7_cancellation [0] 2000 _ rfl (fun _ => rfl)).1.1,
   (C7_cancellation [0] 2000 _ rfl (fun _ => rfl)).1.2.1,
   (C7_cancellation [0] 2000 _ rfl (fun _ => rfl)).1.2.2.2 rfl⟩

/-- Witness for C8 on a one-commit session started from the initial state. -/
theorem C8_recording_roundtrip_witness :
    (processFrames 800 700 [Frame.hand 1000 (1/2) (1/2) zsMid]
      (toggleRecording 0 initialState)).1.recordedNotes.length
      = (processFrames 800 700 [Frame.hand 1000 (1/2) (1/2) zsMid]
          (toggleRecording 0 initialState)).2.1.length :=
  (C8_recording_roundtrip 800 700 0 initialState
    [Frame.hand 1000 (1/2) (1/2) zsMid] rfl rfl).2.2.2.1

/-- Witness for C9: play-all on the (empty) initial buffer reports and
leaves the state untouched. -/
theorem C9_empty_workflow_witness :
    playRecording 0 initialState = (initialState, none, [],
      some "No notes recorded yet! Click Record while playing to capture notes.") :=
  (C9_empty_workflow 0 true initialState).1 rfl

/-- Witness for C10: the invariant holds after a concrete processed frame
starting from the initial state. -/
theorem C10_recorded_event_wellformed_witness :
    wfState (processFrame 800 700 initialState
      (Frame.hand 1000 (1/2) (1/2) zsMid)).1 :=
  C10_recorded_event_wellformed.2.1 800 700 initialState _
    C10_recorded_event_wellformed.1

end ConcreteRuns

end HandGesture
